import Mathlib

/-!
# StreamFX: binding header for the NVIDIA AR SDK

A shallow embedding of `source/nvidia/ar/nvidia-ar.hpp`.  The header holds
declarations only: string constants, three struct templates with their
typedefs, three plain records, and the class `ar` whose entry-point members
are generated by `P_NVAR_DEFINE_FUNCTION`.  Declarations are embedded as data
(types, fields, members), and the little behaviour the header fixes (base
class fields come first, adjacent string literals concatenate, a call through
a function pointer runs the pointee) as functions over that data.
-/

set_option linter.dupNamespace false

namespace streamfx.nvidia.ar

/-! ## C++ types named by the header -/

/-- The C++ types the header mentions.  `templ n T` is the instantiation
`n<T>` of one of the struct templates, `stream_t` is
`::streamfx::nvidia::cuda::stream_t` and `result` is
`::streamfx::nvidia::cv::result`, both declared in headers this one includes. -/
inductive CType where
  | void
  | char
  | float
  | double
  | uint8_t
  | uint16_t
  | int32_t
  | uint32_t
  | uint64_t
  | size_t
  | stream_t
  | result
  | const (t : CType)
  | ptr (t : CType)
  | templ (name : String) (arg : CType)
  deriving DecidableEq, Repr

/-- Whether a type is a pointer, that is a reference to storage held elsewhere. -/
def CType.isPointer : CType → Bool
  | .ptr _ => true
  | _ => false

/-- Lines 86-89: `typedef const char* feature_t`. -/
def feature_t : CType := .ptr (.const .char)

/-- Lines 86-89: `typedef const char* parameter_t`. -/
def parameter_t : CType := .ptr (.const .char)

/-- Lines 86-89: `typedef void* object_t`. -/
def object_t : CType := .ptr .void

/-- Lines 86-89: `typedef void* handle_t`. -/
def handle_t : CType := .ptr .void

/-! ## Feature identifiers (lines 91-96) -/

/-- A `static constexpr` string constant: its declared type and its value. -/
structure StrConst where
  type : CType
  value : String
  deriving DecidableEq, Repr

def FEATURE_BODY_DETECTION : StrConst := ⟨feature_t, "BodyDetection"⟩
def FEATURE_BODY_POSE_ESTIMATION : StrConst := ⟨feature_t, "BodyPoseEstimation"⟩
def FEATURE_FACE_DETECTION : StrConst := ⟨feature_t, "FaceDetection"⟩
def FEATURE_FACE_BOX_DETECTION : StrConst := ⟨feature_t, "FaceBoxDetection"⟩
def FEATURE_FACE_RECONSTRUCTION : StrConst := ⟨feature_t, "Face3DReconstruction"⟩
def FEATURE_LANDMARK_DETECTION : StrConst := ⟨feature_t, "LandMarkDetection"⟩

/-- Every `feature_t` constant the header defines, in declaration order. -/
def features : List StrConst :=
  [FEATURE_BODY_DETECTION, FEATURE_BODY_POSE_ESTIMATION, FEATURE_FACE_DETECTION,
   FEATURE_FACE_BOX_DETECTION, FEATURE_FACE_RECONSTRUCTION, FEATURE_LANDMARK_DETECTION]

/-! ## Struct declarations (lines 98-136) -/

/-- A data member: `type name;`. -/
structure Field where
  type : CType
  name : String
  deriving DecidableEq, Repr

/-- A struct declaration: an optional public base and the members the body
declares, in order. -/
inductive StructDecl where
  | mk (base : Option StructDecl) (members : List Field)

/-- The members a struct body declares itself. -/
def StructDecl.members : StructDecl → List Field
  | .mk _ ms => ms

/-- The full field sequence of a struct: the fields of the base sub-object
first, then the struct's own members. -/
def StructDecl.fields : StructDecl → List Field
  | .mk none ms => ms
  | .mk (some b) ms => b.fields ++ ms

/-- Lines 98-102: `template<typename T> struct vec2 { T x; T y; }`. -/
def vec2 (T : CType) : StructDecl := .mk none [⟨T, "x"⟩, ⟨T, "y"⟩]

/-- Lines 104-107: `template<typename T> struct vec3 : public vec2<T> { T z; }`. -/
def vec3 (T : CType) : StructDecl := .mk (some (vec2 T)) [⟨T, "z"⟩]

/-- Lines 109-112: `template<typename T> struct vec4 : public vec3<T> { T w; }`. -/
def vec4 (T : CType) : StructDecl := .mk (some (vec3 T)) [⟨T, "w"⟩]

/-- Line 114: `typedef vec2<float> point_t`. -/
def point_t : CType := .templ "vec2" .float

/-- Line 115: `typedef vec4<float> frustum_t`. -/
def frustum_t : CType := .templ "vec4" .float

/-- Line 116: `typedef vec4<float> quaternion_t`. -/
def quaternion_t : CType := .templ "vec4" .float

/-- Line 117: `typedef vec4<float> rect_t`. -/
def rect_t : CType := .templ "vec4" .float

/-- The struct a type names, when it is an instantiation of one of the three
templates. -/
def CType.decl : CType → Option StructDecl
  | .templ "vec2" T => some (vec2 T)
  | .templ "vec3" T => some (vec3 T)
  | .templ "vec4" T => some (vec4 T)
  | _ => none

/-- The types of the fields of a struct type, in order (empty for a type
that is no struct). -/
def CType.fieldTypes (t : CType) : List CType :=
  match t.decl with
  | some d => d.fields.map Field.type
  | none => []

/-- Lines 119-123: `struct bounds_t`. -/
def bounds_t : StructDecl :=
  .mk none [⟨.ptr rect_t, "rects"⟩, ⟨.uint8_t, "current"⟩, ⟨.uint8_t, "maximum"⟩]

/-- Lines 125-130: `struct face_mesh_t`. -/
def face_mesh_t : StructDecl :=
  .mk none [⟨.ptr (.templ "vec3" .float), "vertices"⟩, ⟨.size_t, "num_vertices"⟩,
            ⟨.templ "vec3" .uint16_t, "indices"⟩, ⟨.size_t, "num_indices"⟩]

/-- Lines 132-136: `struct rendering_params_t`. -/
def rendering_params_t : StructDecl :=
  .mk none [⟨frustum_t, "frustum"⟩, ⟨quaternion_t, "rotation"⟩,
            ⟨.templ "vec3" .float, "translation"⟩]

/-- The declared type of the member called `name`, if the struct has one. -/
def StructDecl.typeOf (d : StructDecl) (name : String) : Option CType :=
  (d.fields.find? (fun f => f.name == name)).map Field.type

/-! ## Parameter keys (lines 35-83) -/

/-- Line 35: `#define P_NVAR_INPUT`. -/
def P_NVAR_INPUT : String := "NvAR_Parameter_Input_"

/-- Line 36: `#define P_NVAR_OUTPUT`. -/
def P_NVAR_OUTPUT : String := "NvAR_Parameter_Output_"

/-- Line 37: `#define P_NVAR_CONFIG`. -/
def P_NVAR_CONFIG : String := "NvAR_Parameter_Config_"

/-- The three key families of the comment at lines 39-83. -/
inductive Family where
  | config
  | input
  | output
  deriving DecidableEq, Repr

/-- The string literal a family's keys start with. -/
def Family.literal : Family → String
  | .config => P_NVAR_CONFIG
  | .input => P_NVAR_INPUT
  | .output => P_NVAR_OUTPUT

/-- A key as the header writes it, `P_NVAR_CONFIG "BatchSize"`: two adjacent
string literals, which the compiler concatenates. -/
def key (f : Family) (name : String) : String := f.literal ++ name

/-- Lines 40-59: the names listed under "Config Parameters". -/
def config_names : List String :=
  ["BatchSize", "UseCudaGraph", "CUDAStream", "ExpressionCount", "FeatureDescription",
   "FocalLength", "GPU", "Landmarks_Size", "LandmarksConfidence_Size", "Mode", "TRTModelDir",
   "ModelDir", "ModelName", "NumKeyPoints", "ReferencePose", "ShapeEigenValueCount",
   "Temporal", "TriangleCount", "VertexCount"]

/-- Lines 61-67: the names listed under "Input Parameters". -/
def input_names : List String :=
  ["Image", "Width", "Height", "BoundingBoxes", "BoundingBoxesConfidence", "Landmarks"]

/-- Lines 69-82: the names listed under "Output Parameters". -/
def output_names : List String :=
  ["BoundingBoxes", "BoundingBoxesConfidence", "ExpressionCoefficients", "FaceMesh",
   "JointAngles", "KeyPoints", "KeyPoints3D", "KeyPointsConfidence", "Landmarks",
   "LandmarksConfidence", "Pose", "RenderingParams", "ShapeEigenValues"]

/-- Every key the comment lists. -/
def listed_keys : List String :=
  config_names.map (key .config) ++ input_names.map (key .input)
    ++ output_names.map (key .output)

/-! ## Entry points (lines 28-33 and 152-180) -/

/-- A machine word: an integer argument, an address or a handle. -/
abbrev Word := Int

/-- The memory that pointer arguments refer to; an external function writes
its output parameters here. -/
abbrev Memory := List Word

/-- An exported function of the SDK: from the argument tuple and the memory
to the `cv::result` code it returns and the memory it leaves. -/
abbrev ExtFn := List Word → Memory → Word × Memory

/-- A function pointer: null, or the function it points to. -/
abbrev FnPtr := Option ExtFn

/-- The null function pointer. -/
def nullptr : FnPtr := none

/-- A function parameter, `type name`. -/
structure Param where
  type : CType
  name : String
  deriving DecidableEq, Repr

/-- Access of a class member. -/
inductive Access where
  | priv
  | pub
  deriving DecidableEq, Repr

/-- What one use of `P_NVAR_DEFINE_FUNCTION` declares: a typedef of a pointer
to a function, and a data member of that type with a default initialiser. -/
structure FnMember where
  typedefAccess : Access
  typedefName : String
  result : CType
  params : List Param
  access : Access
  name : String
  init : FnPtr

/-- Lines 28-33: `P_NVAR_DEFINE_FUNCTION(name, ...)` expands to
`private: typedef cv::result (*t##name)(__VA_ARGS__); public: t##name name = nullptr;`. -/
def P_NVAR_DEFINE_FUNCTION (name : String) (args : List Param) : FnMember :=
  { typedefAccess := .priv
    typedefName := "t" ++ name
    result := .result
    params := args
    access := .pub
    name := name
    init := nullptr }

/-- The entry-point members of class `ar`, one per use of
`P_NVAR_DEFINE_FUNCTION` at lines 152-180. -/
inductive EntryPoint where
  | NvAR_GetVersion
  | NvAR_Create
  | NvAR_Destroy
  | NvAR_Run
  | NvAR_Load
  | NvAR_GetS32
  | NvAR_SetS32
  | NvAR_GetU32
  | NvAR_SetU32
  | NvAR_GetU64
  | NvAR_SetU64
  | NvAR_GetF32
  | NvAR_SetF32
  | NvAR_GetF64
  | NvAR_SetF64
  | NvAR_GetString
  | NvAR_SetString
  | NvAR_GetCudaStream
  | NvAR_SetCudaStream
  | NvAR_GetObject
  | NvAR_SetObject
  | NvAR_GetF32Array
  | NvAR_SetF32Array
  deriving DecidableEq, Repr

/-- The members in declaration order. -/
def EntryPoint.all : List EntryPoint :=
  [.NvAR_GetVersion, .NvAR_Create, .NvAR_Destroy, .NvAR_Run, .NvAR_Load,
   .NvAR_GetS32, .NvAR_SetS32, .NvAR_GetU32, .NvAR_SetU32, .NvAR_GetU64, .NvAR_SetU64,
   .NvAR_GetF32, .NvAR_SetF32, .NvAR_GetF64, .NvAR_SetF64, .NvAR_GetString, .NvAR_SetString,
   .NvAR_GetCudaStream, .NvAR_SetCudaStream, .NvAR_GetObject, .NvAR_SetObject,
   .NvAR_GetF32Array, .NvAR_SetF32Array]

/-- Lines 152-180: the declaration behind each member. -/
def EntryPoint.decl : EntryPoint → FnMember
  | .NvAR_GetVersion => P_NVAR_DEFINE_FUNCTION "NvAR_GetVersion" [⟨.ptr .uint32_t, "version"⟩]
  | .NvAR_Create =>
    P_NVAR_DEFINE_FUNCTION "NvAR_Create" [⟨feature_t, "feature_id"⟩, ⟨.ptr handle_t, "ptr"⟩]
  | .NvAR_Destroy => P_NVAR_DEFINE_FUNCTION "NvAR_Destroy" [⟨handle_t, "ptr"⟩]
  | .NvAR_Run => P_NVAR_DEFINE_FUNCTION "NvAR_Run" [⟨handle_t, "ptr"⟩]
  | .NvAR_Load => P_NVAR_DEFINE_FUNCTION "NvAR_Load" [⟨handle_t, "ptr"⟩]
  | .NvAR_GetS32 => P_NVAR_DEFINE_FUNCTION "NvAR_GetS32"
      [⟨handle_t, "ptr"⟩, ⟨parameter_t, "parameter"⟩, ⟨.ptr .int32_t, "value"⟩]
  | .NvAR_SetS32 => P_NVAR_DEFINE_FUNCTION "NvAR_SetS32"
      [⟨handle_t, "ptr"⟩, ⟨parameter_t, "parameter"⟩, ⟨.int32_t, "value"⟩]
  | .NvAR_GetU32 => P_NVAR_DEFINE_FUNCTION "NvAR_GetU32"
      [⟨handle_t, "ptr"⟩, ⟨parameter_t, "parameter"⟩, ⟨.ptr .uint32_t, "value"⟩]
  | .NvAR_SetU32 => P_NVAR_DEFINE_FUNCTION "NvAR_SetU32"
      [⟨handle_t, "ptr"⟩, ⟨parameter_t, "parameter"⟩, ⟨.uint32_t, "value"⟩]
  | .NvAR_GetU64 => P_NVAR_DEFINE_FUNCTION "NvAR_GetU64"
      [⟨handle_t, "ptr"⟩, ⟨parameter_t, "parameter"⟩, ⟨.ptr .uint64_t, "value"⟩]
  | .NvAR_SetU64 => P_NVAR_DEFINE_FUNCTION "NvAR_SetU64"
      [⟨handle_t, "ptr"⟩, ⟨parameter_t, "parameter"⟩, ⟨.uint64_t, "value"⟩]
  | .NvAR_GetF32 => P_NVAR_DEFINE_FUNCTION "NvAR_GetF32"
      [⟨handle_t, "ptr"⟩, ⟨parameter_t, "parameter"⟩, ⟨.ptr .float, "value"⟩]
  | .NvAR_SetF32 => P_NVAR_DEFINE_FUNCTION "NvAR_SetF32"
      [⟨handle_t, "ptr"⟩, ⟨parameter_t, "parameter"⟩, ⟨.float, "value"⟩]
  | .NvAR_GetF64 => P_NVAR_DEFINE_FUNCTION "NvAR_GetF64"
      [⟨handle_t, "ptr"⟩, ⟨parameter_t, "parameter"⟩, ⟨.ptr .double, "value"⟩]
  | .NvAR_SetF64 => P_NVAR_DEFINE_FUNCTION "NvAR_SetF64"
      [⟨handle_t, "ptr"⟩, ⟨parameter_t, "parameter"⟩, ⟨.double, "value"⟩]
  | .NvAR_GetString => P_NVAR_DEFINE_FUNCTION "NvAR_GetString"
      [⟨handle_t, "ptr"⟩, ⟨parameter_t, "parameter"⟩, ⟨.ptr (.ptr (.const .char)), "value"⟩]
  | .NvAR_SetString => P_NVAR_DEFINE_FUNCTION "NvAR_SetString"
      [⟨handle_t, "ptr"⟩, ⟨parameter_t, "parameter"⟩, ⟨.ptr (.const .char), "value"⟩]
  | .NvAR_GetCudaStream => P_NVAR_DEFINE_FUNCTION "NvAR_GetCudaStream"
      [⟨handle_t, "ptr"⟩, ⟨parameter_t, "parameter"⟩, ⟨.ptr .stream_t, "value"⟩]
  | .NvAR_SetCudaStream => P_NVAR_DEFINE_FUNCTION "NvAR_SetCudaStream"
      [⟨handle_t, "ptr"⟩, ⟨parameter_t, "parameter"⟩, ⟨.stream_t, "value"⟩]
  | .NvAR_GetObject => P_NVAR_DEFINE_FUNCTION "NvAR_GetObject"
      [⟨handle_t, "ptr"⟩, ⟨parameter_t, "parameter"⟩, ⟨.ptr object_t, "value"⟩,
       ⟨.uint32_t, "size"⟩]
  | .NvAR_SetObject => P_NVAR_DEFINE_FUNCTION "NvAR_SetObject"
      [⟨handle_t, "ptr"⟩, ⟨parameter_t, "parameter"⟩, ⟨object_t, "value"⟩,
       ⟨.uint32_t, "size"⟩]
  | .NvAR_GetF32Array => P_NVAR_DEFINE_FUNCTION "NvAR_GetF32Array"
      [⟨handle_t, "ptr"⟩, ⟨parameter_t, "parameter"⟩, ⟨.ptr (.ptr (.const .float)), "values"⟩,
       ⟨.ptr .int32_t, "size"⟩]
  | .NvAR_SetF32Array => P_NVAR_DEFINE_FUNCTION "NvAR_SetF32Array"
      [⟨handle_t, "ptr"⟩, ⟨parameter_t, "parameter"⟩, ⟨.ptr (.const .float), "values"⟩,
       ⟨.int32_t, "size"⟩]

/-- The member's name, which is also the symbol it is bound to. -/
def EntryPoint.symbol (e : EntryPoint) : String := e.decl.name

/-- The type of the value parameter of an accessor: the one after the handle
and the parameter key. -/
def EntryPoint.valueType (e : EntryPoint) : Option CType :=
  (e.decl.params.drop 2).head?.map Param.type

/-- The value kinds of the accessor pairs at lines 159-180, in order. -/
def value_kinds : List String :=
  ["S32", "U32", "U64", "F32", "F64", "String", "CudaStream", "Object", "F32Array"]

/-! ## The adapter class (lines 138-184) -/

/-- Modelled from the spec: `::streamfx::util::library`, declared in a header
that is not part of the sources.  A loaded library answers a symbol name with
the exported function of that exact name, or with null when it exports none. -/
structure Library where
  load_symbol : String → FnPtr

/-- An object of class `ar`: the private members `_library` and `_model_path`
(lines 139-140) and one function pointer per entry-point member.  The
`WIN32`-only member `_extra` plays no part in any property below. -/
structure ar where
  _library : Library
  _model_path : String
  fn : EntryPoint → FnPtr

/-- The object as its default member initialisers leave it, before anything
is bound: every entry-point member holds the initialiser of its declaration. -/
def ar.unbound (lib : Library) (path : String) : ar :=
  { _library := lib, _model_path := path, fn := fun e => e.decl.init }

/-- A call through a function pointer runs the function it points to on the
arguments; a call through the null pointer has no defined result. -/
def callPtr (p : FnPtr) (args : List Word) (m : Memory) : Option (Word × Memory) :=
  match p with
  | none => none
  | some f => some (f args m)

/-- Invoking a member, `a->NvAR_Run(args)`: the member is read and called. -/
def ar.invoke (a : ar) (e : EntryPoint) (args : List Word) (m : Memory) :
    Option (Word × Memory) :=
  callPtr (a.fn e) args m

/-- The caller doing without the adapter: the function the library exports
under the name is called on the same arguments. -/
def direct_call (lib : Library) (name : String) (args : List Word) (m : Memory) :
    Option (Word × Memory) :=
  callPtr (lib.load_symbol name) args m

/-- Modelled from the spec: the constructor `ar::ar()`, declared at line 147;
its body is not part of the sources.  Section 4.1: it "attempts to resolve
every required entry point by exact symbol name", "binding failure for any
required symbol is a fatal construction error", and "the design must surface
which symbol failed".  The error carries the name of the symbol that did not
resolve; on success every member holds what its name resolved to. -/
def ar.construct (lib : Library) (path : String) : Except String ar :=
  match EntryPoint.all.find? (fun e => (lib.load_symbol e.symbol).isNone) with
  | some e => .error e.symbol
  | none => .ok { _library := lib, _model_path := path, fn := fun e => lib.load_symbol e.symbol }

/-- Modelled from the spec: `ar::get_model_path()`, declared at line 149; its
body is not part of the sources.  Section 4.1: accessors "expose the resolved
model-data path".  The member function is not `const`, so the object it
leaves is part of what it returns. -/
def ar.get_model_path (a : ar) : String × ar := (a._model_path, a)

/-- What a holder of the constructed adapter can ask of it: the path
accessor, or a call through one of the entry-point members. -/
inductive Op where
  | get_model_path
  | invoke (e : EntryPoint) (args : List Word)

/-- The adapter together with the memory the external functions work on. -/
structure State where
  self : ar
  mem : Memory

/-- One operation.  An external function acts on the memory it is handed; a
call through a null member leaves everything as it was. -/
def step (s : State) : Op → State
  | .get_model_path => { s with self := s.self.get_model_path.2 }
  | .invoke e args =>
    match s.self.invoke e args s.mem with
    | some (_, m) => { s with mem := m }
    | none => s

/-- A sequence of operations, one after the other. -/
def run (s : State) (ops : List Op) : State := ops.foldl step s

/-- A library exporting exactly the names in `names`; each export stores its
first argument in the first memory cell and returns the number of arguments. -/
def stub_library (names : List String) : Library :=
  { load_symbol := fun n =>
      if n ∈ names then some (fun args m => ((args.length : Int), m.set 0 (args.headD 0)))
      else none }

/-! ## Struct layouts -/

/-- C1: for every element type T the fields of vec3 are those of vec2 followed
by z, the fields of vec4 are those of vec3 followed by w, so the three have
2, 3 and 4 fields of type T in the order x, y, z, w; point_t has two floats
and frustum_t, quaternion_t and rect_t have four floats each. -/
theorem vec_field_sequences (T : CType) :
    (vec2 T).fields = [⟨T, "x"⟩, ⟨T, "y"⟩]
    ∧ (vec3 T).fields = (vec2 T).fields ++ [⟨T, "z"⟩]
    ∧ (vec4 T).fields = (vec3 T).fields ++ [⟨T, "w"⟩]
    ∧ (vec3 T).fields = [⟨T, "x"⟩, ⟨T, "y"⟩, ⟨T, "z"⟩]
    ∧ (vec4 T).fields = [⟨T, "x"⟩, ⟨T, "y"⟩, ⟨T, "z"⟩, ⟨T, "w"⟩]
    ∧ point_t.fieldTypes = [.float, .float]
    ∧ frustum_t.fieldTypes = [.float, .float, .float, .float]
    ∧ quaternion_t.fieldTypes = [.float, .float, .float, .float]
    ∧ rect_t.fieldTypes = [.float, .float, .float, .float] := by
  refine ⟨rfl, rfl, rfl, rfl, rfl, rfl, rfl, rfl, rfl⟩

/-- C2: in face_mesh_t the member vertices is a pointer followed by its count,
while the member indices, also followed by a count, is declared as one inline
vec3 of uint16_t and not as a pointer. -/
theorem face_mesh_indices_inline :
    face_mesh_t.fields.map Field.name = ["vertices", "num_vertices", "indices", "num_indices"]
    ∧ face_mesh_t.typeOf "vertices" = some (.ptr (.templ "vec3" .float))
    ∧ face_mesh_t.typeOf "num_vertices" = some .size_t
    ∧ face_mesh_t.typeOf "indices" = some (.templ "vec3" .uint16_t)
    ∧ face_mesh_t.typeOf "num_indices" = some .size_t
    ∧ (face_mesh_t.typeOf "vertices").map CType.isPointer = some true
    ∧ (face_mesh_t.typeOf "indices").map CType.isPointer = some false := by
  refine ⟨rfl, ?_, ?_, ?_, ?_, ?_, ?_⟩ <;> decide

/-! ## Feature identifiers -/

/-- C7: exactly six feature identifiers are defined, with the values
BodyDetection, BodyPoseEstimation, FaceDetection, FaceBoxDetection,
Face3DReconstruction and LandMarkDetection, and the six values are pairwise
distinct. -/
theorem feature_identifiers :
    features.length = 6
    ∧ FEATURE_BODY_DETECTION.value = "BodyDetection"
    ∧ FEATURE_BODY_POSE_ESTIMATION.value = "BodyPoseEstimation"
    ∧ FEATURE_FACE_DETECTION.value = "FaceDetection"
    ∧ FEATURE_FACE_BOX_DETECTION.value = "FaceBoxDetection"
    ∧ FEATURE_FACE_RECONSTRUCTION.value = "Face3DReconstruction"
    ∧ FEATURE_LANDMARK_DETECTION.value = "LandMarkDetection"
    ∧ (features.map StrConst.value).Nodup
    ∧ (∀ c ∈ features, c.type = feature_t) := by
  refine ⟨rfl, rfl, rfl, rfl, rfl, rfl, rfl, ?_, ?_⟩ <;> decide

/-! ## Entry points -/

/-- Every entry point is in the declaration-order list. -/
theorem EntryPoint.mem_all (e : EntryPoint) : e ∈ EntryPoint.all := by
  cases e <;> decide

/-- C6: the entry points are exactly 23 pairwise-distinct symbol names, the
five of version, create, destroy, run and load and, for each of the nine value
kinds, exactly one getter and one setter; the getter of a kind takes a pointer
to the type its setter takes by value. -/
theorem entry_points_exact :
    EntryPoint.all.map EntryPoint.symbol
      = ["NvAR_GetVersion", "NvAR_Create", "NvAR_Destroy", "NvAR_Run", "NvAR_Load"]
        ++ value_kinds.flatMap (fun k => ["NvAR_Get" ++ k, "NvAR_Set" ++ k])
    ∧ (∀ e : EntryPoint, e ∈ EntryPoint.all)
    ∧ EntryPoint.all.length = 23
    ∧ (EntryPoint.all.map EntryPoint.symbol).Nodup
    ∧ value_kinds.length = 9
    ∧ value_kinds.Nodup
    ∧ (∀ k ∈ value_kinds, ∃ g ∈ EntryPoint.all, ∃ s ∈ EntryPoint.all,
        g.symbol = "NvAR_Get" ++ k ∧ s.symbol = "NvAR_Set" ++ k
        ∧ (∀ e ∈ EntryPoint.all, e.symbol = "NvAR_Get" ++ k → e = g)
        ∧ (∀ e ∈ EntryPoint.all, e.symbol = "NvAR_Set" ++ k → e = s)
        ∧ s.valueType.isSome = true
        ∧ g.valueType = s.valueType.map CType.ptr) := by
  refine ⟨by decide, EntryPoint.mem_all, rfl, by decide, rfl, by decide, ?_⟩
  decide

/-- C9: every member generated by P_NVAR_DEFINE_FUNCTION has the null
function pointer as its default value, so in an adapter on which nothing has
been bound every entry-point member is null and no call through one of them
has a result. -/
theorem members_default_null :
    (∀ (name : String) (args : List Param), (P_NVAR_DEFINE_FUNCTION name args).init = nullptr)
    ∧ (∀ e : EntryPoint, e.decl.init = nullptr)
    ∧ (∀ (lib : Library) (path : String) (e : EntryPoint), (ar.unbound lib path).fn e = nullptr)
    ∧ (∀ (lib : Library) (path : String) (e : EntryPoint) (args : List Word) (m : Memory),
        (ar.unbound lib path).invoke e args m = none) := by
  have h : ∀ e : EntryPoint, e.decl.init = nullptr := by
    intro e
    cases e <;> rfl
  refine ⟨fun _ _ => rfl, h, fun _ _ e => h e, ?_⟩
  intro lib path e args m
  simp [ar.invoke, ar.unbound, h e, nullptr, callPtr]

/-! ## Parameter keys -/

/-- The characters of a key: those of the family literal, then those of the name. -/
theorem key_data (f : Family) (a : String) : (key f a).data = f.literal.data ++ a.data := by
  simp [key, String.data_append]

/-- The characters of the three literals. -/
theorem literal_data (f : Family) :
    f.literal.data = "NvAR_Parameter_".data ++
      (match f with
        | .config => "Config_".data
        | .input => "Input_".data
        | .output => "Output_".data) := by
  cases f <;> rfl

/-- C10: a parameter key is the family literal followed by the name, the three
literals are the ones the header defines, and two keys are equal exactly when
they have the same family and the same name; so the input key BoundingBoxes
differs from the output key BoundingBoxes. -/
theorem parameter_key_injective :
    (P_NVAR_CONFIG = "NvAR_Parameter_Config_" ∧ P_NVAR_INPUT = "NvAR_Parameter_Input_"
      ∧ P_NVAR_OUTPUT = "NvAR_Parameter_Output_")
    ∧ (Family.config.literal = P_NVAR_CONFIG ∧ Family.input.literal = P_NVAR_INPUT
      ∧ Family.output.literal = P_NVAR_OUTPUT)
    ∧ (∀ (f : Family) (a : String), key f a = f.literal ++ a)
    ∧ (∀ (f g : Family) (a b : String), key f a = key g b ↔ f = g ∧ a = b)
    ∧ key .input "BoundingBoxes" ≠ key .output "BoundingBoxes"
    ∧ listed_keys.Nodup := by
  have inj : ∀ (f g : Family) (a b : String), key f a = key g b ↔ f = g ∧ a = b := by
    intro f g a b
    constructor
    · intro h
      have hd := congrArg String.data h
      rw [key_data, key_data, literal_data, literal_data, List.append_assoc,
        List.append_assoc] at hd
      have hd2 := List.append_cancel_left hd
      cases f <;> cases g <;> simp at hd2 <;>
        exact ⟨rfl, String.ext hd2⟩
    · rintro ⟨rfl, rfl⟩
      rfl
  refine ⟨⟨rfl, rfl, rfl⟩, ⟨rfl, rfl, rfl⟩, fun _ _ => rfl, inj, ?_, by decide⟩
  intro h
  exact absurd ((inj _ _ _ _).1 h).1 (by decide)

/-! ## The adapter -/

/-- C3: when a member of the adapter is bound to the function the library
exports under the member's name, invoking the member on an argument tuple
gives exactly what calling that function on the same tuple gives: the same
return code and the same memory afterwards. -/
theorem invoke_is_direct_call (lib : Library) (a : ar) (e : EntryPoint) (f : ExtFn)
    (args : List Word) (m : Memory)
    (hext : lib.load_symbol e.symbol = some f) (hbound : a.fn e = some f) :
    a.invoke e args m = some (f args m)
    ∧ a.invoke e args m = direct_call lib e.symbol args m := by
  simp [ar.invoke, direct_call, callPtr, hext, hbound]

/-- C3 at a concrete input: the member NvAR_Run of an adapter bound to a stub
library, called on the arguments 7 and 8. -/
theorem invoke_is_direct_call_witness :
    (ar.mk (stub_library ["NvAR_Run"]) "models"
        (fun e => (stub_library ["NvAR_Run"]).load_symbol e.symbol)).invoke
      .NvAR_Run [7, 8] [0, 0] = some (2, [7, 0]) :=
  (invoke_is_direct_call (stub_library ["NvAR_Run"])
    (ar.mk (stub_library ["NvAR_Run"]) "models"
      (fun e => (stub_library ["NvAR_Run"]).load_symbol e.symbol))
    .NvAR_Run (fun args m => ((args.length : Int), m.set 0 (args.headD 0)))
    [7, 8] [0, 0] rfl rfl).1

/-- C4: constructing the adapter against a loaded library fails exactly when
some required entry point does not resolve by its name; the error then names a
required symbol that did not resolve; the outcome depends on the library
alone; and an adapter that is returned has every member bound to what its
name resolved to. -/
theorem construct_fails_iff_symbol_missing (lib : Library) (path : String) :
    ((∃ s, ar.construct lib path = .error s)
        ↔ ∃ e : EntryPoint, lib.load_symbol e.symbol = nullptr)
    ∧ (∀ s, ar.construct lib path = .error s →
        (∃ e : EntryPoint, e.symbol = s) ∧ lib.load_symbol s = nullptr)
    ∧ (∀ a, ar.construct lib path = .ok a →
        ∀ e : EntryPoint, a.fn e ≠ nullptr ∧ a.fn e = lib.load_symbol e.symbol)
    ∧ (∀ (path2 : String) (s : String),
        ar.construct lib path2 = .error s ↔ ar.construct lib path = .error s) := by
  have hk : ∀ p : String,
      (∀ s, ar.construct lib p = .error s →
        (∃ e : EntryPoint, e.symbol = s) ∧ lib.load_symbol s = nullptr)
      ∧ (∀ a, ar.construct lib p = .ok a →
        ∀ e : EntryPoint, a.fn e ≠ nullptr ∧ a.fn e = lib.load_symbol e.symbol) := by
    intro p
    unfold ar.construct
    cases hf : EntryPoint.all.find? (fun e => (lib.load_symbol e.symbol).isNone) with
    | some e0 =>
      have h0 := List.find?_some hf
      refine ⟨?_, ?_⟩
      · intro s hs
        simp only [Except.error.injEq] at hs
        subst hs
        exact ⟨⟨e0, rfl⟩, by simpa [nullptr] using h0⟩
      · intro a ha
        simp at ha
    | none =>
      have hall := List.find?_eq_none.1 hf
      refine ⟨?_, ?_⟩
      · intro s hs
        simp at hs
      · intro a ha e
        simp only [Except.ok.injEq] at ha
        subst ha
        have := hall e (EntryPoint.mem_all e)
        exact ⟨by simpa [nullptr] using this, rfl⟩
  refine ⟨⟨?_, ?_⟩, (hk path).1, (hk path).2, ?_⟩
  · rintro ⟨s, hs⟩
    obtain ⟨⟨e, he⟩, hn⟩ := (hk path).1 s hs
    exact ⟨e, by rw [he]; exact hn⟩
  · rintro ⟨e, he⟩
    cases hc : ar.construct lib path with
    | error s => exact ⟨s, rfl⟩
    | ok a => exact absurd he ((hk path).2 a hc e |>.2 ▸ ((hk path).2 a hc e).1)
  · intro path2 s
    unfold ar.construct
    cases EntryPoint.all.find? (fun e => (lib.load_symbol e.symbol).isNone) <;> simp

/-- C8: no operation on the adapter changes an entry-point member: after any
sequence of path queries and calls through members, every member holds what it
held before, so a bound member stays bound to the same function and none goes
back to null. -/
theorem pointers_never_change (s : State) (ops : List Op) :
    (run s ops).self.fn = s.self.fn
    ∧ (∀ (e : EntryPoint) (f : ExtFn), s.self.fn e = some f → (run s ops).self.fn e = some f)
    ∧ (∀ e : EntryPoint, s.self.fn e ≠ nullptr → (run s ops).self.fn e ≠ nullptr) := by
  have hstep : ∀ (t : State) (o : Op), (step t o).self = t.self := by
    intro t o
    cases o with
    | get_model_path => rfl
    | invoke e args =>
      simp only [step]
      cases t.self.invoke e args t.mem with
      | none => rfl
      | some r => rfl
  have hrun : ∀ (l : List Op) (t : State), (run t l).self = t.self := by
    intro l
    induction l with
    | nil => intro t; rfl
    | cons o l ih =>
      intro t
      show (run (step t o) l).self = t.self
      rw [ih, hstep]
  have h := hrun ops s
  refine ⟨by rw [h], ?_, ?_⟩
  · intro e f hf
    rw [h]; exact hf
  · intro e he
    rw [h]; exact he

/-- Construction against a library that exports all 23 names succeeds. -/
theorem construct_full_library :
    ∃ a, ar.construct (stub_library (EntryPoint.all.map EntryPoint.symbol)) "models" = .ok a :=
  ⟨_, rfl⟩

/-- Construction against a library that lacks NvAR_Load fails and names it. -/
theorem construct_without_load :
    ar.construct
        (stub_library ((EntryPoint.all.map EntryPoint.symbol).erase "NvAR_Load")) "models"
      = .error "NvAR_Load" :=
  rfl

end streamfx.nvidia.ar
